import Mathlib

/-!
Verification of the request dispatcher of the kubernetes apiserver package
(`pkg/apiserver/apiserver.go`), shallowly embedded in Lean.

Modelling conventions:
* Durations are natural numbers of milliseconds (`millisecond`, `second`).
* The request body has already been read: `Request.body` is the outcome of
  `readBody` (`ioutil.ReadAll` on the body), an `Except` value.
* External collaborators (the label-selector parser `labels.ParseSelector`,
  the duration parser `time.ParseDuration`, the codec's `DecodeInto`) are
  parameters collected in `Env`; the codec's `Encode` step is abstracted
  away, a rendered response is the `(statusCode, object)` pair handed to
  `writeJSON`.
* Backend (`RESTStorage`) calls made during a dispatch are recorded in a
  trace (`calls`), server-side log lines in `logs`, and the operation
  registered for a mutating request in `registered`, so that claims about
  "which backend method was invoked" and "what was logged" are statable.
* A Go panic is embedded as an explicit `HandlerOutcome.panicked` value;
  `serveHTTP` models the `recover` boundary of `APIServer.ServeHTTP`.
-/

/-- One millisecond, the base duration unit of the model. -/
def millisecond : Nat := 1

/-- One second, in milliseconds. -/
def second : Nat := 1000 * millisecond

/-- The universe of opaque payload objects the dispatcher moves around.
`statusPtr`/`statusVal` are a `*api.Status` / `api.Status` carrying a
machine status code and message; `opPending` is the pending-operation
placeholder referencing an operation identifier; `plain` is any other
object. -/
inductive Obj where
  | plain : String → Obj
  | statusPtr : Nat → String → Obj
  | statusVal : Nat → String → Obj
  | opPending : String → Obj
  deriving DecidableEq, Repr

/-- An error value, as seen through `errToAPIStatus`: the API status code
derived from the error kind, and a message. -/
structure Err where
  code : Nat
  msg : String
  deriving DecidableEq, Repr

/-- A parsed label selector (opaque to the dispatcher). -/
structure Selector where
  raw : String
  deriving DecidableEq, Repr

/-- Modelled from the spec: `errToAPIStatus` is not part of the source under
verification (only its caller `errorJSON` is); per §7 of the spec it converts
an error into a structured status object whose HTTP code is derived from the
error's kind. -/
def errToAPIStatus (e : Err) : Obj := Obj.statusPtr e.code e.msg

/-- A rendered HTTP response: the status code and object handed to
`writeJSON` (the codec's `Encode` is abstracted away). -/
structure Response where
  status : Nat
  body : Obj
  deriving DecidableEq, Repr

/-- `errorJSON` renders an error: `status := errToAPIStatus(err)` then
`writeJSON(status.Code, codec, status, w)`. -/
def errorJSON (e : Err) : Response :=
  { status := e.code, body := errToAPIStatus e }

/-- `strings.Split` on a single separator character: every maximal run of
non-separator characters becomes a segment, and splitting a non-empty text
on a separator it does not contain yields that text as its one segment
(splitting the empty text yields one empty segment, as in Go). -/
def splitChar (sep : Char) : List Char → List String
  | [] => [""]
  | c :: rest =>
    let r := splitChar sep rest
    if c == sep then "" :: r
    else
      match r with
      | [] => [String.mk [c]]
      | s :: ss => String.mk (c :: s.toList) :: ss

/-- `strings.Trim(path, "/")`: drop leading and trailing separator
characters. -/
def trimSlashes (path : String) : String :=
  String.mk (((path.toList.dropWhile (· == '/')).reverse.dropWhile (· == '/')).reverse)

/-- `splitPath` returns the segments for a URL path:
`path = strings.Trim(path, "/")`; if the result is empty, no segments,
else `strings.Split(path, "/")`. -/
def splitPath (path : String) : List String :=
  let p := trimSlashes path
  if p = "" then [] else splitChar '/' p.toList

/-- The path segments exactly as the spec describes them: trim leading and
trailing separator characters, split the remainder on the separator; an
empty remainder yields zero segments. Stated separately from `splitPath`
(which is translated from the source) so the two can be compared. -/
def specSegments (path : String) : List String :=
  let trimmed := trimSlashes path
  if trimmed = "" then [] else splitChar '/' trimmed.toList

/-- `parseTimeout`: a non-empty string that parses as a duration yields that
duration; a non-empty string that fails to parse is logged and the default
of 30 seconds is returned; an empty string yields the default silently.
The duration parser (`time.ParseDuration`) is a parameter `pd`. Returns the
parsed duration together with the log lines emitted. -/
def parseTimeout (pd : String → Option Nat) (str : String) : Nat × List String :=
  if str ≠ "" then
    match pd str with
    | some t => (t, [])
    | none => (30 * second, ["Failed to parse timeout " ++ str])
  else (30 * second, [])

/-- The deferred result source a mutating backend call returns (the
`<-chan interface{}`), modelled by the instant at which the backend
produces the value (`none` if it never completes) and the value itself. -/
structure DeferredSource where
  completesAt : Option Nat
  value : Obj
  deriving DecidableEq, Repr

/-- A tracked Operation: its registry identifier, the deferred source it
wraps, and the total duration the dispatcher has waited on it so far. -/
structure Operation where
  id : String
  source : DeferredSource
  waited : Nat
  deriving DecidableEq, Repr

/-- `Operation.WaitFor(duration)`: block until the result arrives or the
duration elapses; in the timing model this extends the waited window. -/
def Operation.waitFor (op : Operation) (d : Nat) : Operation :=
  { op with waited := max op.waited d }

/-- Modelled from the spec: `Operation.StatusOrResult` is not part of the
source under verification (only its caller `finishReq` is). Per §4.3 of the
spec it returns `(outcome, isComplete)`: the realized outcome with `true`
once the deferred result has arrived within the waited window, else a
pending-status placeholder carrying the operation's identifier with
`false`. -/
def Operation.statusOrResult (op : Operation) : Obj × Bool :=
  match op.source.completesAt with
  | some t => if t ≤ op.waited then (op.source.value, true) else (Obj.opPending op.id, false)
  | none => (Obj.opPending op.id, false)

/-- `createOperation`: register the deferred source as a new Operation
(`s.ops.NewOperation(out)`, the fresh identifier is the parameter `newId`),
then `if sync { op.WaitFor(timeout) } else if s.asyncOpWait != 0
{ op.WaitFor(s.asyncOpWait) }`. -/
def createOperation (asyncOpWait : Nat) (newId : String) (out : DeferredSource)
    (sync : Bool) (timeout : Nat) : Operation :=
  let op : Operation := { id := newId, source := out, waited := 0 }
  if sync then op.waitFor timeout
  else if asyncOpWait ≠ 0 then op.waitFor asyncOpWait
  else op

/-- `finishReq`: query `op.StatusOrResult()`. If complete, render the
outcome with status 200, except that an `api.Status` or `*api.Status`
outcome with a non-zero `Code` overrides the status (the by-value
`api.Status` case additionally logs a programmer-error line). If not
complete, render 202 Accepted with the placeholder outcome. Returns the
response together with the log lines emitted. -/
def finishReq (op : Operation) : Response × List String :=
  let r := op.statusOrResult
  if r.2 then
    match r.1 with
    | Obj.statusVal c m =>
        ({ status := if c ≠ 0 then c else 200, body := Obj.statusVal c m },
         ["programmer error: use *api.Status as a result, not api.Status."])
    | Obj.statusPtr c m =>
        ({ status := if c ≠ 0 then c else 200, body := Obj.statusPtr c m }, [])
    | o => ({ status := 200, body := o }, [])
  else ({ status := 202, body := r.1 }, [])

/-- The external collaborators a dispatch depends on: the label-selector
parser, the duration parser, the codec's `DecodeInto`, and the fresh
operation identifier the registry would hand out. -/
structure Env where
  parseSelector : String → Except Err Selector
  parseDuration : String → Option Nat
  decodeInto : String → Obj → Except Err Obj
  newOpId : String

/-- An HTTP request as the dispatcher sees it: method, URL path, the raw
`sync` / `timeout` / `labels` query-parameter values (empty string when
absent), and the outcome of reading the body. -/
structure Request where
  method : String
  path : String
  querySync : String
  queryTimeout : String
  queryLabels : String
  body : Except Err String

/-- The per-collection storage backend contract: List/Get return a value or
an error; Create/Update/Delete return a deferred result source or an
error; `new` is the empty object `New()` constructs for decoding. -/
structure RESTStorage where
  list : Selector → Except Err Obj
  get : String → Except Err Obj
  create : Obj → Except Err DeferredSource
  update : Obj → Except Err DeferredSource
  delete : String → Except Err DeferredSource
  new : Obj

/-- A record of one backend method invocation with its arguments. -/
inductive BackendCall where
  | list : Selector → BackendCall
  | get : String → BackendCall
  | create : Obj → BackendCall
  | update : Obj → BackendCall
  | delete : String → BackendCall
  deriving DecidableEq, Repr

/-- The observable outcome of a dispatch: the rendered response, the trace
of backend calls made, the Operation registered (for a mutating request
that reached `createOperation`), and the server-side log lines. -/
structure DispatchResult where
  response : Response
  calls : List BackendCall
  registered : Option Operation
  logs : List String
  deriving Repr

/-- Modelled from the spec: the `notFound` response writer is not part of
the source under verification (only its callers are); per the spec it
renders a generic Not Found answer carrying no diagnostic detail. -/
def notFoundResponse : Response :=
  { status := 404, body := Obj.plain "404 page not found" }

/-- A dispatch that ends at `notFound`: no backend call, no operation, no
log line. -/
def notFoundResult : DispatchResult :=
  { response := notFoundResponse, calls := [], registered := none, logs := [] }

/-- `sync := req.URL.Query().Get("sync") == "true"`. -/
def syncParam (v : String) : Bool := v = "true"

/-- The method/path-length switch of `handleRESTStorage`, after `sync` and
`timeout` have been computed. Cases in source order: GET (length 1 list
with selector, length 2 get, default not found), POST (length 1 only),
DELETE (length 2 only), PUT (length 2 only), default not found. -/
def dispatchSwitch (env : Env) (asyncOpWait : Nat) (parts : List String)
    (req : Request) (storage : RESTStorage) (sync : Bool) (timeout : Nat) :
    DispatchResult :=
  if req.method = "GET" then
    match parts with
    | [_] =>
      match env.parseSelector req.queryLabels with
      | .error e => { response := errorJSON e, calls := [], registered := none, logs := [] }
      | .ok sel =>
        match storage.list sel with
        | .error e =>
            { response := errorJSON e, calls := [BackendCall.list sel],
              registered := none, logs := [] }
        | .ok lst =>
            { response := { status := 200, body := lst },
              calls := [BackendCall.list sel], registered := none, logs := [] }
    | [_, name] =>
      match storage.get name with
      | .error e =>
          { response := errorJSON e, calls := [BackendCall.get name],
            registered := none, logs := [] }
      | .ok item =>
          { response := { status := 200, body := item },
            calls := [BackendCall.get name], registered := none, logs := [] }
    | _ => notFoundResult
  else if req.method = "POST" then
    match parts with
    | [_] =>
      match req.body with
      | .error e => { response := errorJSON e, calls := [], registered := none, logs := [] }
      | .ok body =>
        match env.decodeInto body storage.new with
        | .error e => { response := errorJSON e, calls := [], registered := none, logs := [] }
        | .ok obj =>
          match storage.create obj with
          | .error e =>
              { response := errorJSON e, calls := [BackendCall.create obj],
                registered := none, logs := [] }
          | .ok out =>
            let op := createOperation asyncOpWait env.newOpId out sync timeout
            let fr := finishReq op
            { response := fr.1, calls := [BackendCall.create obj],
              registered := some op, logs := fr.2 }
    | _ => notFoundResult
  else if req.method = "DELETE" then
    match parts with
    | [_, name] =>
      match storage.delete name with
      | .error e =>
          { response := errorJSON e, calls := [BackendCall.delete name],
            registered := none, logs := [] }
      | .ok out =>
        let op := createOperation asyncOpWait env.newOpId out sync timeout
        let fr := finishReq op
        { response := fr.1, calls := [BackendCall.delete name],
          registered := some op, logs := fr.2 }
    | _ => notFoundResult
  else if req.method = "PUT" then
    match parts with
    | [_, _] =>
      match req.body with
      | .error e => { response := errorJSON e, calls := [], registered := none, logs := [] }
      | .ok body =>
        match env.decodeInto body storage.new with
        | .error e => { response := errorJSON e, calls := [], registered := none, logs := [] }
        | .ok obj =>
          match storage.update obj with
          | .error e =>
              { response := errorJSON e, calls := [BackendCall.update obj],
                registered := none, logs := [] }
          | .ok out =>
            let op := createOperation asyncOpWait env.newOpId out sync timeout
            let fr := finishReq op
            { response := fr.1, calls := [BackendCall.update obj],
              registered := some op, logs := fr.2 }
    | _ => notFoundResult
  else notFoundResult

/-- `handleRESTStorage`: compute `sync` and `timeout` from the query
parameters, then run the method/path switch; log lines from timeout
parsing precede those from the switch. -/
def handleRESTStorage (env : Env) (asyncOpWait : Nat) (parts : List String)
    (req : Request) (storage : RESTStorage) : DispatchResult :=
  let sync := syncParam req.querySync
  let tl := parseTimeout env.parseDuration req.queryTimeout
  let r := dispatchSwitch env asyncOpWait parts req storage sync tl.1
  { r with logs := tl.2 ++ r.logs }

/-- The APIServer state the dispatcher needs: the collection-name-to-backend
map and the async wait window. -/
structure APIServer where
  storage : String → Option RESTStorage
  asyncOpWait : Nat

/-- `New`: construct an APIServer over a storage map, with the async
operation wait window defaulted to 25 milliseconds. -/
def newAPIServer (storage : String → Option RESTStorage) : APIServer :=
  { storage := storage, asyncOpWait := 25 * millisecond }

/-- The server-side log line for an unknown collection name
(`'%v' has no storage object`). -/
def missingStorageLog (name : String) : String :=
  name ++ " has no storage object"

/-- `handleREST`: split the path; zero segments is Not Found; an unknown
first segment logs the name and answers Not Found; otherwise dispatch to
the selected backend. -/
def handleREST (env : Env) (srv : APIServer) (req : Request) : DispatchResult :=
  match splitPath req.path with
  | [] => notFoundResult
  | first :: rest =>
    match srv.storage first with
    | none => { notFoundResult with logs := [missingStorageLog first] }
    | some st => handleRESTStorage env srv.asyncOpWait (first :: rest) req st

/-- The outcome of the inner handler as seen by `ServeHTTP`'s recover
boundary: either a rendered response, or a panic carrying its detail
string. -/
inductive HandlerOutcome where
  | ok : Response → HandlerOutcome
  | panicked : String → HandlerOutcome
  deriving DecidableEq, Repr

/-- `ServeHTTP`'s deferred `recover`: a normal outcome passes through; a
panic is logged with its full detail and answered with a generic 500 whose
body carries no information from the panic. -/
def serveHTTP (inner : HandlerOutcome) : Response × List String :=
  match inner with
  | HandlerOutcome.ok r => (r, [])
  | HandlerOutcome.panicked x =>
      ({ status := 500, body := Obj.plain "apis panic. Look in log for details." },
       ["APIServer panicked: " ++ x])

/-- (method, segment count) pairs the routing table of `handleRESTStorage`
accepts. -/
def routeMatches (method : String) (n : Nat) : Bool :=
  (method == "GET" && (n == 1 || n == 2)) ||
  (method == "POST" && n == 1) ||
  (method == "DELETE" && n == 2) ||
  (method == "PUT" && n == 2)


/-- Concrete collaborators used to witness the theorems: the selector
parser rejects the string "bad", the duration parser accepts only "50ms",
decoding rejects the body "garbage". -/
def sampleEnv : Env :=
  { parseSelector := fun s =>
      if s = "bad" then Except.error ⟨400, "bad selector"⟩ else Except.ok ⟨s⟩
    parseDuration := fun s => if s = "50ms" then some 50 else none
    decodeInto := fun b _ =>
      if b = "garbage" then Except.error ⟨400, "decode failure"⟩
      else Except.ok (Obj.plain b)
    newOpId := "op1" }

/-- A concrete storage backend used to witness the theorems. -/
def sampleStorage : RESTStorage :=
  { list := fun sel => Except.ok (Obj.plain ("list " ++ sel.raw))
    get := fun n => Except.ok (Obj.plain ("get " ++ n))
    create := fun _ => Except.ok ⟨some 5, Obj.plain "created"⟩
    update := fun _ => Except.ok ⟨some 5, Obj.plain "updated"⟩
    delete := fun _ => Except.ok ⟨some 100, Obj.plain "deleted"⟩
    new := Obj.plain "empty" }

/-- A concrete request used to witness the theorems. -/
def sampleReq (m p : String) : Request :=
  { method := m, path := p, querySync := "", queryTimeout := "",
    queryLabels := "x=y", body := Except.ok "body" }

/-! ### Shared lemmas -/

/-- A duration string the parser rejects yields the 30-second default. -/
lemma parseTimeout_fst_of_none (pd : String → Option Nat) (str : String)
    (h : pd str = none) : (parseTimeout pd str).1 = 30 * second := by
  unfold parseTimeout
  by_cases hs : str = "" <;> simp [hs, h]

/-- The empty duration string yields the 30-second default silently. -/
lemma parseTimeout_empty (pd : String → Option Nat) :
    parseTimeout pd "" = (30 * second, []) := by
  simp [parseTimeout]

/-! ### Claims -/

/-- C5: the dispatcher's path segments are obtained by trimming leading and
trailing separator characters and splitting the remainder on the
separator; the empty path, and any path consisting only of separators,
yield zero segments; and a request with zero segments is answered Not
Found with no backend invoked. -/
theorem splitPath_spec :
    (∀ p, splitPath p = specSegments p) ∧
    splitPath "" = [] ∧
    (∀ p : String, (∀ c ∈ p.toList, c = '/') → splitPath p = []) ∧
    (∀ env srv req, splitPath req.path = [] →
      handleREST env srv req = notFoundResult) := by
  refine ⟨fun p => rfl, rfl, ?_, ?_⟩
  · intro p h
    have hdrop : List.dropWhile (fun x => x == '/') p.data = [] := by
      rw [List.dropWhile_eq_nil_iff]
      intro x hx
      simp [h x hx]
    simp [splitPath, trimSlashes, String.toList, hdrop]
  · intro env srv req h
    simp [handleREST, h]

/-- C5 witness: the concrete path consisting only of separators has zero
segments and is answered Not Found. -/
theorem splitPath_spec_witness :
    splitPath "///" = [] ∧
    handleREST
      { parseSelector := fun s => Except.ok ⟨s⟩, parseDuration := fun _ => none,
        decodeInto := fun b _ => Except.ok (Obj.plain b), newOpId := "op1" }
      { storage := fun _ => none, asyncOpWait := 25 }
      { method := "GET", path := "///", querySync := "", queryTimeout := "",
        queryLabels := "", body := Except.ok "" } = notFoundResult := by
  constructor
  · exact splitPath_spec.2.2.1 "///" (by decide)
  · exact splitPath_spec.2.2.2 _ _ _ (by decide)

/-- C4: the parsed timeout equals the duration denoted by the `timeout`
query parameter when it parses, and equals 30 seconds when the parameter
is absent (empty) or unparsable; an unparsable value is only logged, and
the dispatch proceeds exactly as it would with the default timeout. -/
theorem parseTimeout_spec (pd : String → Option Nat) (str : String) :
    (∀ t, str ≠ "" → pd str = some t → (parseTimeout pd str).1 = t) ∧
    (pd str = none → (parseTimeout pd str).1 = 30 * second) ∧
    (parseTimeout pd "").1 = 30 * second ∧
    (str ≠ "" → pd str = none →
      (parseTimeout pd str).2 = ["Failed to parse timeout " ++ str]) ∧
    (∀ env aw parts req st, env.parseDuration req.queryTimeout = none →
      (handleRESTStorage env aw parts req st).response =
        (dispatchSwitch env aw parts req st (syncParam req.querySync)
          (30 * second)).response ∧
      (handleRESTStorage env aw parts req st).calls =
        (dispatchSwitch env aw parts req st (syncParam req.querySync)
          (30 * second)).calls) := by
  refine ⟨?_, parseTimeout_fst_of_none pd str, by simp [parseTimeout], ?_, ?_⟩
  · intro t hs hp
    simp [parseTimeout, hs, hp]
  · intro hs hp
    simp [parseTimeout, hs, hp]
  · intro env aw parts req st h
    have := parseTimeout_fst_of_none env.parseDuration req.queryTimeout h
    constructor <;> simp [handleRESTStorage, this]

/-- C4 witness: a concrete unparsable timeout value yields the 30-second
default, only a log line, and the same response as the default. -/
theorem parseTimeout_spec_witness :
    (parseTimeout (fun _ => none) "zzz").1 = 30 * second ∧
    (parseTimeout (fun _ => none) "zzz").2 = ["Failed to parse timeout zzz"] ∧
    (handleRESTStorage
        { parseSelector := fun s => Except.ok ⟨s⟩, parseDuration := fun _ => none,
          decodeInto := fun b _ => Except.ok (Obj.plain b), newOpId := "op1" }
        25 ["pods"]
        { method := "GET", path := "/pods", querySync := "", queryTimeout := "zzz",
          queryLabels := "", body := Except.ok "" }
        { list := fun _ => Except.ok (Obj.plain "list"),
          get := fun n => Except.ok (Obj.plain n),
          create := fun _ => Except.ok ⟨some 5, Obj.plain "created"⟩,
          update := fun _ => Except.ok ⟨some 5, Obj.plain "updated"⟩,
          delete := fun _ => Except.ok ⟨some 100, Obj.plain "deleted"⟩,
          new := Obj.plain "" }).response =
      { status := 200, body := Obj.plain "list" } := by
  refine ⟨(parseTimeout_spec (fun _ => none) "zzz").2.1 rfl, ?_, ?_⟩
  · exact (parseTimeout_spec (fun _ => none) "zzz").2.2.2.1 (by decide) rfl
  · have := ((parseTimeout_spec (fun _ => none) "zzz").2.2.2.2
      { parseSelector := fun s => Except.ok ⟨s⟩, parseDuration := fun _ => none,
        decodeInto := fun b _ => Except.ok (Obj.plain b), newOpId := "op1" }
      25 ["pods"]
      { method := "GET", path := "/pods", querySync := "", queryTimeout := "zzz",
        queryLabels := "", body := Except.ok "" }
      { list := fun _ => Except.ok (Obj.plain "list"),
        get := fun n => Except.ok (Obj.plain n),
        create := fun _ => Except.ok ⟨some 5, Obj.plain "created"⟩,
        update := fun _ => Except.ok ⟨some 5, Obj.plain "updated"⟩,
        delete := fun _ => Except.ok ⟨some 100, Obj.plain "deleted"⟩,
        new := Obj.plain "" } rfl).1
    rw [this]
    decide

/-- C3: for a server built by `New`, the dispatcher's wait bound on
Operation completion is the caller-supplied timeout when sync is true,
and otherwise the server's fixed async wait window, whose default is 25
milliseconds. -/
theorem createOperation_wait_bound (storage : String → Option RESTStorage)
    (id : String) (out : DeferredSource) (sync : Bool) (timeout : Nat) :
    (newAPIServer storage).asyncOpWait = 25 * millisecond ∧
    (createOperation (newAPIServer storage).asyncOpWait id out sync timeout).waited =
      if sync then timeout else 25 * millisecond := by
  refine ⟨rfl, ?_⟩
  cases sync <;> simp [createOperation, Operation.waitFor, newAPIServer, millisecond]

/-- C9: the request is synchronous exactly when the `sync` query parameter
is the string "true"; any other value (absent, "TRUE", "1", "yes", ...)
yields sync = false, and then the wait bound of the operation created for
the request is the async window, not the caller-supplied timeout. -/
theorem syncParam_exact :
    syncParam "true" = true ∧
    (∀ v, v ≠ "true" → syncParam v = false) ∧
    syncParam "TRUE" = false ∧ syncParam "1" = false ∧
    syncParam "yes" = false ∧ syncParam "" = false ∧
    (∀ v id out timeout, v ≠ "true" →
      (createOperation (25 * millisecond) id out (syncParam v) timeout).waited =
        25 * millisecond) := by
  refine ⟨rfl, ?_, by decide, by decide, by decide, by decide, ?_⟩
  · intro v h
    simp [syncParam, h]
  · intro v id out timeout h
    have hv : syncParam v = false := by simp [syncParam, h]
    simp [hv, createOperation, Operation.waitFor, millisecond]

/-- C9 witness: a concrete value other than "true" is asynchronous and
keeps the 25 millisecond wait bound even with a large caller timeout. -/
theorem syncParam_exact_witness :
    syncParam "True" = false ∧
    (createOperation (25 * millisecond) "op1" ⟨some 7, Obj.plain "x"⟩
      (syncParam "True") 30000).waited = 25 * millisecond := by
  refine ⟨syncParam_exact.2.1 "True" (by decide), ?_⟩
  exact syncParam_exact.2.2.2.2.2.2 "True" "op1" ⟨some 7, Obj.plain "x"⟩ 30000 (by decide)

/-- C8: a panic anywhere inside request handling is caught at the
`ServeHTTP` boundary: the client sees only HTTP 500 with a generic body
identical for every panic (no internal detail), while the panic's full
detail goes to the server-side log; a normal outcome passes through
untouched. -/
theorem serveHTTP_panic_recovery :
    (∀ r, serveHTTP (HandlerOutcome.ok r) = (r, [])) ∧
    (∀ x, (serveHTTP (HandlerOutcome.panicked x)).1 =
      { status := 500, body := Obj.plain "apis panic. Look in log for details." }) ∧
    (∀ x y, (serveHTTP (HandlerOutcome.panicked x)).1 =
      (serveHTTP (HandlerOutcome.panicked y)).1) ∧
    (∀ x, (serveHTTP (HandlerOutcome.panicked x)).2 = ["APIServer panicked: " ++ x]) :=
  ⟨fun _ => rfl, fun _ => rfl, fun _ _ => rfl, fun _ => rfl⟩

/-- C2: once a mutating request has registered the deferred result as an
Operation, the dispatcher renders a complete Operation's outcome with HTTP
status equal to the outcome's non-zero code when the outcome is a
structured status object (`*api.Status` or by-value `api.Status`) carrying
one, else 200; an incomplete Operation renders HTTP 202 with a payload
referencing the Operation's identifier; and the mutating (DELETE) path
indeed registers the created Operation and renders through `finishReq`. -/
theorem finishReq_rendering (op : Operation) :
    ((op.statusOrResult).2 = true →
      (finishReq op).1.body = (op.statusOrResult).1) ∧
    (∀ c m, op.statusOrResult = (Obj.statusPtr c m, true) → c ≠ 0 →
      (finishReq op).1.status = c) ∧
    (∀ c m, op.statusOrResult = (Obj.statusVal c m, true) → c ≠ 0 →
      (finishReq op).1.status = c) ∧
    (∀ m, op.statusOrResult = (Obj.statusPtr 0 m, true) →
      (finishReq op).1.status = 200) ∧
    (∀ m, op.statusOrResult = (Obj.statusVal 0 m, true) →
      (finishReq op).1.status = 200) ∧
    (∀ s, op.statusOrResult = (Obj.plain s, true) →
      (finishReq op).1.status = 200) ∧
    ((op.statusOrResult).2 = false →
      (finishReq op).1 = { status := 202, body := Obj.opPending op.id }) ∧
    (∀ env aw req st c n out, req.method = "DELETE" →
      st.delete n = Except.ok out →
      (handleRESTStorage env aw [c, n] req st).registered =
        some (createOperation aw env.newOpId out (syncParam req.querySync)
          (parseTimeout env.parseDuration req.queryTimeout).1) ∧
      (handleRESTStorage env aw [c, n] req st).response =
        (finishReq (createOperation aw env.newOpId out (syncParam req.querySync)
          (parseTimeout env.parseDuration req.queryTimeout).1)).1) := by
  refine ⟨?_, ?_, ?_, ?_, ?_, ?_, ?_, ?_⟩
  · intro h
    cases hr : (op.statusOrResult).1 <;> simp [finishReq, h, hr]
  · intro c m h hc
    simp [finishReq, h, hc]
  · intro c m h hc
    simp [finishReq, h, hc]
  · intro m h
    simp [finishReq, h]
  · intro m h
    simp [finishReq, h]
  · intro s h
    simp [finishReq, h]
  · intro h
    have h1 : op.statusOrResult = (Obj.opPending op.id, false) := by
      rcases hc : op.source.completesAt with _ | t
      · simp [Operation.statusOrResult, hc]
      · by_cases ht : t ≤ op.waited
        · simp [Operation.statusOrResult, hc, ht] at h
        · simp [Operation.statusOrResult, hc, ht]
    simp [finishReq, h1]
  · intro env aw req st c n out hm hd
    constructor <;> simp [handleRESTStorage, dispatchSwitch, hm, hd]

/-- C2 witness: a concrete Operation completed with a conflict status
object renders with status 409; a concrete Operation whose source has not
yet completed renders 202 with a payload referencing its identifier; and a
concrete DELETE registers its Operation. -/
theorem finishReq_rendering_witness :
    (finishReq ⟨"op1", ⟨some 5, Obj.statusPtr 409 "conflict"⟩, 25⟩).1.status = 409 ∧
    (finishReq ⟨"op2", ⟨some 100, Obj.plain "late"⟩, 25⟩).1 =
      { status := 202, body := Obj.opPending "op2" } ∧
    (handleRESTStorage sampleEnv 25 ["pods", "foo"] (sampleReq "DELETE" "/pods/foo")
        sampleStorage).registered =
      some (createOperation 25 "op1" ⟨some 100, Obj.plain "deleted"⟩ false (30 * second)) := by
  refine ⟨?_, ?_, ?_⟩
  · exact (finishReq_rendering ⟨"op1", ⟨some 5, Obj.statusPtr 409 "conflict"⟩, 25⟩).2.1
      409 "conflict" (by decide) (by decide)
  · exact (finishReq_rendering ⟨"op2", ⟨some 100, Obj.plain "late"⟩, 25⟩).2.2.2.2.2.2.1
      (by decide)
  · have := ((finishReq_rendering ⟨"w", ⟨none, Obj.plain ""⟩, 0⟩).2.2.2.2.2.2.2
      sampleEnv 25 (sampleReq "DELETE" "/pods/foo") sampleStorage "pods" "foo"
      ⟨some 100, Obj.plain "deleted"⟩ rfl rfl).1
    rw [this]
    rfl

/-- C6: a GET List request whose `labels` query parameter fails selector
parsing is answered with the error rendered as a status object, and the
backend's List method is never invoked. -/
theorem list_selector_parse_error (env : Env) (aw : Nat) (req : Request)
    (st : RESTStorage) (c : String) (e : Err)
    (hm : req.method = "GET")
    (hp : env.parseSelector req.queryLabels = Except.error e) :
    (handleRESTStorage env aw [c] req st).calls = [] ∧
    (handleRESTStorage env aw [c] req st).response = errorJSON e ∧
    (handleRESTStorage env aw [c] req st).response.body = errToAPIStatus e := by
  refine ⟨?_, ?_, ?_⟩ <;> simp [handleRESTStorage, dispatchSwitch, hm, hp, errorJSON]

/-- C6 witness: the concrete unparsable selector "bad" yields the error
status object and no backend call. -/
theorem list_selector_parse_error_witness :
    (handleRESTStorage sampleEnv 25 ["pods"]
      { sampleReq "GET" "/pods" with queryLabels := "bad" } sampleStorage).calls = [] ∧
    (handleRESTStorage sampleEnv 25 ["pods"]
      { sampleReq "GET" "/pods" with queryLabels := "bad" } sampleStorage).response =
      errorJSON ⟨400, "bad selector"⟩ := by
  have h := list_selector_parse_error sampleEnv 25
    { sampleReq "GET" "/pods" with queryLabels := "bad" } sampleStorage "pods"
    ⟨400, "bad selector"⟩ rfl rfl
  exact ⟨h.1, h.2.1⟩

/-- C7: a request whose first path segment names no registered collection
is answered Not Found with no backend invoked and no operation registered;
the missing name is logged server-side, while the HTTP response is the
generic Not Found response, identical whatever the unknown name was. -/
theorem unknown_collection_not_found (env : Env) (srv : APIServer) (req : Request)
    (first : String) (rest : List String)
    (hsplit : splitPath req.path = first :: rest)
    (hnone : srv.storage first = none) :
    handleREST env srv req = { notFoundResult with logs := [missingStorageLog first] } ∧
    (handleREST env srv req).response = notFoundResponse ∧
    (handleREST env srv req).calls = [] ∧
    (handleREST env srv req).registered = none := by
  have h : handleREST env srv req =
      { notFoundResult with logs := [missingStorageLog first] } := by
    simp [handleREST, hsplit, hnone]
  exact ⟨h, by rw [h]; rfl, by rw [h]; rfl, by rw [h]; rfl⟩

/-- C7 witness: a concrete GET on an unregistered collection name is
answered with the generic Not Found response, no backend call, and the
missing name in the server-side log. -/
theorem unknown_collection_not_found_witness :
    handleREST sampleEnv { storage := fun _ => none, asyncOpWait := 25 }
        (sampleReq "GET" "/unknowncollection") =
      { notFoundResult with logs := [missingStorageLog "unknowncollection"] } :=
  (unknown_collection_not_found sampleEnv
    { storage := fun _ => none, asyncOpWait := 25 }
    (sampleReq "GET" "/unknowncollection") "unknowncollection" []
    (by decide) rfl).1

/-- C10: a POST or PUT whose body read fails, or whose body fails to decode
into the backend-constructed object, is answered with the error's status
rendering; the backend's Create/Update is never invoked and no Operation
is registered. -/
theorem malformed_body_no_mutation (env : Env) (aw : Nat) (req : Request)
    (st : RESTStorage) (e : Err) :
    (∀ c, req.method = "POST" → req.body = Except.error e →
      (handleRESTStorage env aw [c] req st).response = errorJSON e ∧
      (handleRESTStorage env aw [c] req st).calls = [] ∧
      (handleRESTStorage env aw [c] req st).registered = none) ∧
    (∀ c b, req.method = "POST" → req.body = Except.ok b →
      env.decodeInto b st.new = Except.error e →
      (handleRESTStorage env aw [c] req st).response = errorJSON e ∧
      (handleRESTStorage env aw [c] req st).calls = [] ∧
      (handleRESTStorage env aw [c] req st).registered = none) ∧
    (∀ c n, req.method = "PUT" → req.body = Except.error e →
      (handleRESTStorage env aw [c, n] req st).response = errorJSON e ∧
      (handleRESTStorage env aw [c, n] req st).calls = [] ∧
      (handleRESTStorage env aw [c, n] req st).registered = none) ∧
    (∀ c n b, req.method = "PUT" → req.body = Except.ok b →
      env.decodeInto b st.new = Except.error e →
      (handleRESTStorage env aw [c, n] req st).response = errorJSON e ∧
      (handleRESTStorage env aw [c, n] req st).calls = [] ∧
      (handleRESTStorage env aw [c, n] req st).registered = none) := by
  refine ⟨?_, ?_, ?_, ?_⟩
  · intro c hm hb
    refine ⟨?_, ?_, ?_⟩ <;> simp [handleRESTStorage, dispatchSwitch, hm, hb]
  · intro c b hm hb hd
    refine ⟨?_, ?_, ?_⟩ <;> simp [handleRESTStorage, dispatchSwitch, hm, hb, hd]
  · intro c n hm hb
    refine ⟨?_, ?_, ?_⟩ <;> simp [handleRESTStorage, dispatchSwitch, hm, hb]
  · intro c n b hm hb hd
    refine ⟨?_, ?_, ?_⟩ <;> simp [handleRESTStorage, dispatchSwitch, hm, hb, hd]

/-- C10 witness: a concrete POST whose body read failed, and a concrete PUT
whose body does not decode, each yield the error rendering with no backend
call and no registered Operation. -/
theorem malformed_body_no_mutation_witness :
    (handleRESTStorage sampleEnv 25 ["pods"]
      { sampleReq "POST" "/pods" with body := Except.error ⟨400, "read failure"⟩ }
      sampleStorage).calls = [] ∧
    (handleRESTStorage sampleEnv 25 ["pods", "foo"]
      { sampleReq "PUT" "/pods/foo" with body := Except.ok "garbage" }
      sampleStorage).registered = none := by
  constructor
  · exact ((malformed_body_no_mutation sampleEnv 25
      { sampleReq "POST" "/pods" with body := Except.error ⟨400, "read failure"⟩ }
      sampleStorage ⟨400, "read failure"⟩).1 "pods" rfl rfl).2.1
  · exact ((malformed_body_no_mutation sampleEnv 25
      { sampleReq "PUT" "/pods/foo" with body := Except.ok "garbage" }
      sampleStorage ⟨400, "decode failure"⟩).2.2.2 "pods" "foo" "garbage"
      rfl rfl rfl).2.2

/-- C1: for every request whose method and path-segment count match a row
of the routing table, the dispatcher invokes exactly that backend method
with the parsed arguments (the parsed selector for List, the name from the
second segment for Get/Delete, the decoded body for Create/Update); for
every other (method, segment-count) combination it answers Not Found with
no backend call and no Operation registered. -/
theorem routing_table (env : Env) (aw : Nat) (req : Request) (st : RESTStorage) :
    (∀ c sel, req.method = "GET" →
      env.parseSelector req.queryLabels = Except.ok sel →
      (handleRESTStorage env aw [c] req st).calls = [BackendCall.list sel]) ∧
    (∀ c n, req.method = "GET" →
      (handleRESTStorage env aw [c, n] req st).calls = [BackendCall.get n]) ∧
    (∀ c b obj, req.method = "POST" → req.body = Except.ok b →
      env.decodeInto b st.new = Except.ok obj →
      (handleRESTStorage env aw [c] req st).calls = [BackendCall.create obj]) ∧
    (∀ c n b obj, req.method = "PUT" → req.body = Except.ok b →
      env.decodeInto b st.new = Except.ok obj →
      (handleRESTStorage env aw [c, n] req st).calls = [BackendCall.update obj]) ∧
    (∀ c n, req.method = "DELETE" →
      (handleRESTStorage env aw [c, n] req st).calls = [BackendCall.delete n]) ∧
    (∀ parts, routeMatches req.method parts.length = false →
      (handleRESTStorage env aw parts req st).response = notFoundResponse ∧
      (handleRESTStorage env aw parts req st).calls = [] ∧
      (handleRESTStorage env aw parts req st).registered = none) := by
  refine ⟨?_, ?_, ?_, ?_, ?_, ?_⟩
  · intro c sel hm hsel
    rcases hl : st.list sel with e | lst <;>
      simp [handleRESTStorage, dispatchSwitch, hm, hsel, hl]
  · intro c n hm
    rcases hg : st.get n with e | item <;>
      simp [handleRESTStorage, dispatchSwitch, hm, hg]
  · intro c b obj hm hb hd
    rcases hc : st.create obj with e | out <;>
      simp [handleRESTStorage, dispatchSwitch, hm, hb, hd, hc]
  · intro c n b obj hm hb hd
    rcases hu : st.update obj with e | out <;>
      simp [handleRESTStorage, dispatchSwitch, hm, hb, hd, hu]
  · intro c n hm
    rcases hd : st.delete n with e | out <;>
      simp [handleRESTStorage, dispatchSwitch, hm, hd]
  · intro parts h
    by_cases hg : req.method = "GET"
    · rcases parts with _ | ⟨a, _ | ⟨b, _ | ⟨c3, rest⟩⟩⟩
      · refine ⟨?_, ?_, ?_⟩ <;>
          simp [handleRESTStorage, dispatchSwitch, hg, notFoundResult, notFoundResponse]
      · simp [routeMatches, hg] at h
      · simp [routeMatches, hg] at h
      · refine ⟨?_, ?_, ?_⟩ <;>
          simp [handleRESTStorage, dispatchSwitch, hg, notFoundResult, notFoundResponse]
    · by_cases hp : req.method = "POST"
      · rcases parts with _ | ⟨a, _ | ⟨b, rest⟩⟩
        · refine ⟨?_, ?_, ?_⟩ <;>
            simp [handleRESTStorage, dispatchSwitch, hp, notFoundResult, notFoundResponse]
        · simp [routeMatches, hp] at h
        · refine ⟨?_, ?_, ?_⟩ <;>
            simp [handleRESTStorage, dispatchSwitch, hp, notFoundResult, notFoundResponse]
      · by_cases hd : req.method = "DELETE"
        · rcases parts with _ | ⟨a, _ | ⟨b, _ | ⟨c3, rest⟩⟩⟩
          · refine ⟨?_, ?_, ?_⟩ <;>
              simp [handleRESTStorage, dispatchSwitch, hd, notFoundResult, notFoundResponse]
          · refine ⟨?_, ?_, ?_⟩ <;>
              simp [handleRESTStorage, dispatchSwitch, hd, notFoundResult, notFoundResponse]
          · simp [routeMatches, hd] at h
          · refine ⟨?_, ?_, ?_⟩ <;>
              simp [handleRESTStorage, dispatchSwitch, hd, notFoundResult, notFoundResponse]
        · by_cases hu : req.method = "PUT"
          · rcases parts with _ | ⟨a, _ | ⟨b, _ | ⟨c3, rest⟩⟩⟩
            · refine ⟨?_, ?_, ?_⟩ <;>
                simp [handleRESTStorage, dispatchSwitch, hu, notFoundResult, notFoundResponse]
            · refine ⟨?_, ?_, ?_⟩ <;>
                simp [handleRESTStorage, dispatchSwitch, hu, notFoundResult, notFoundResponse]
            · simp [routeMatches, hu] at h
            · refine ⟨?_, ?_, ?_⟩ <;>
                simp [handleRESTStorage, dispatchSwitch, hu, notFoundResult, notFoundResponse]
          · refine ⟨?_, ?_, ?_⟩ <;>
              simp [handleRESTStorage, dispatchSwitch, hg, hp, hd, hu,
                notFoundResult, notFoundResponse]

/-- C1 witness: concrete requests exercising the List row, the Delete row,
and two non-matching combinations (GET with three segments, PATCH). -/
theorem routing_table_witness :
    (handleRESTStorage sampleEnv 25 ["pods"] (sampleReq "GET" "/pods")
      sampleStorage).calls = [BackendCall.list ⟨"x=y"⟩] ∧
    (handleRESTStorage sampleEnv 25 ["pods", "foo"] (sampleReq "DELETE" "/pods/foo")
      sampleStorage).calls = [BackendCall.delete "foo"] ∧
    (handleRESTStorage sampleEnv 25 ["pods", "foo", "bar"]
      (sampleReq "GET" "/pods/foo/bar") sampleStorage).response = notFoundResponse ∧
    (handleRESTStorage sampleEnv 25 ["pods"] (sampleReq "PATCH" "/pods")
      sampleStorage).calls = [] := by
  refine ⟨?_, ?_, ?_, ?_⟩
  · exact (routing_table sampleEnv 25 (sampleReq "GET" "/pods") sampleStorage).1
      "pods" ⟨"x=y"⟩ rfl rfl
  · exact (routing_table sampleEnv 25 (sampleReq "DELETE" "/pods/foo")
      sampleStorage).2.2.2.2.1 "pods" "foo" rfl
  · exact ((routing_table sampleEnv 25 (sampleReq "GET" "/pods/foo/bar")
      sampleStorage).2.2.2.2.2 ["pods", "foo", "bar"] (by decide)).1
  · exact ((routing_table sampleEnv 25 (sampleReq "PATCH" "/pods")
      sampleStorage).2.2.2.2.2 ["pods"] (by decide)).2.1
